import Mathlib

/-!
Shallow embedding of the example device-plugin server of
yyogo/nomad-proxy-device-plugin (`examples/server/rpc_types.py` and
`examples/server/main.py`).

Modelling choices:
* Python `float` values are only constructed and carried by this code,
  never computed with, so they are modelled as rationals (`Rat`).
* The JSON payload of a Reserve request (`request.json`) is modelled by
  an inductive `Json` type; the shape check
  `isinstance(device_ids, list) and all(isinstance(x, str) ...)` becomes
  `asStrList`.
* Python dicts are association lists in insertion order; the dict
  comprehension `{i: "OK" for i in device_ids}` becomes `dictComp`
  (later duplicate keys overwrite the stored value, keys keep their
  first position, exactly as CPython dicts behave).
* The Flask handlers read no module-level mutable variables; the only
  process-wide mutable state any handler touches is the global RNG
  consumed by `random.random()` inside `stats`, modelled as an infinite
  stream of samples with a cursor (`ServerState`).  The wall-clock
  reading `datetime.datetime.now(...).isoformat()` is an external input
  and is passed to `stats` as the `ts` argument.
* `abort(413)` is modelled as `Except.error 413`.
-/

/-- Python's `str` type, used where a field name of the surrounding
structure would otherwise shadow the Lean name `String`. -/
abbrev PyStr := String

namespace Endpoints

def FINGERPRINT : String := "/fingerprint"

def STATS : String := "/stats"

def RESERVE : String := "/reserve"

end Endpoints

/-- `rpc_types.Attribute`: all payload fields optional, defaulting to
`None`, plus a `Unit` label defaulting to `""`. -/
structure Attribute where
  Float : Option Rat := none
  Int : Option Int := none
  String : Option String := none
  Bool : Option Bool := none
  Unit : PyStr := ""
deriving DecidableEq, Repr

/-- `rpc_types.DeviceLocality`. -/
structure DeviceLocality where
  PciBusID : String
deriving DecidableEq, Repr

/-- `rpc_types.Device`. -/
structure Device where
  ID : String
  Healthy : Bool
  HealthDesc : String
  HwLocality : Option DeviceLocality
deriving DecidableEq, Repr

/-- `rpc_types.DeviceGroup`. -/
structure DeviceGroup where
  Vendor : String
  «Type» : String
  Name : String
  Devices : List Device
  Attributes : List (String × Attribute)
deriving DecidableEq, Repr

/-- `rpc_types.FingerprintResponse`. -/
structure FingerprintResponse where
  Devices : List DeviceGroup
  Error : Option String := none
deriving DecidableEq, Repr

/-- `rpc_types.Mount`. -/
structure Mount where
  TaskPath : String
  HostPath : String
  ReadOnly : Bool
deriving DecidableEq, Repr

/-- `rpc_types.DeviceSpec`. -/
structure DeviceSpec where
  TaskPath : String
  HostPath : String
  CgroupPerms : String
deriving DecidableEq, Repr

/-- `rpc_types.ContainerReservation`: the declared Reserve result type.
Its fields are exactly `Envs`, `Mounts` and `Devices`; it carries no
separate bindings field. -/
structure ContainerReservation where
  Envs : List (String × String)
  Mounts : List Mount
  Devices : List DeviceSpec
deriving DecidableEq, Repr

/-- `rpc_types.StatValue`: all payload fields optional, defaulting to
`None`, plus `Unit` and `Desc` labels defaulting to `""`. -/
structure StatValue where
  FloatNumeratorVal : Option Rat := none
  FloatDenominatorVal : Option Rat := none
  IntNumeratorVal : Option Int := none
  IntDenominatorVal : Option Int := none
  StringVal : Option String := none
  BoolVal : Option Bool := none
  Unit : PyStr := ""
  Desc : PyStr := ""
deriving DecidableEq, Repr

/-- `rpc_types.StatObject`: recursive through its `Nested` map. -/
inductive StatObject where
  | mk (Nested : List (String × StatObject)) (Attributes : List (String × StatValue))

/-- `rpc_types.DeviceStats`. -/
structure DeviceStats where
  Summary : Option StatValue := none
  Stats : Option StatObject := none
  Timestamp : Option String := none

/-- `rpc_types.DeviceGroupStats`. -/
structure DeviceGroupStats where
  Vendor : String
  «Type» : String
  Name : String
  InstanceStats : List (String × DeviceStats)

/-- `rpc_types.StatsResponse`. -/
structure StatsResponse where
  Groups : List DeviceGroupStats
  Error : Option String := none

/-- `rpc_types.PluginConfig`. -/
structure PluginConfig where
  Address : String := "http://127.0.0.1:5656/"
  FingerprintPeriod : String := "1m"
deriving DecidableEq, Repr

/-- A JSON value, as Flask's `request.json` can yield one. -/
inductive Json where
  | null
  | bool (b : Bool)
  | num (q : Rat)
  | str (s : String)
  | arr (xs : List Json)
  | obj (kvs : List (String × Json))

/-- `all(isinstance(x, str) for x in xs)`, combined with extraction of
the underlying strings: `some` exactly when every element is a JSON
string. -/
def strList? : List Json → Option (List String)
  | [] => some []
  | Json.str s :: rest => (strList? rest).map (fun l => s :: l)
  | _ :: _ => none

/-- The request-shape check of `reserve`:
`isinstance(device_ids, list) and all(isinstance(x, str) for x in device_ids)`,
returning the list of device IDs when the payload is list-of-strings
shaped. -/
def asStrList : Json → Option (List String)
  | Json.arr xs => strList? xs
  | _ => none

/-- Keys of a Python dict modelled as an association list. -/
def keys (m : List (String × α)) : List String := m.map Prod.fst

/-- Python `d[k]` / `k in d` combined: the value stored under `k`. -/
def alookup (k : String) : List (String × α) → Option α
  | [] => none
  | (k', v) :: rest => if k' = k then some v else alookup k rest

/-- Replace the value stored under `k` in place, keeping positions. -/
def replaceVal : List (String × String) → String → String →
    List (String × String)
  | [], _, _ => []
  | (a, b) :: rest, k, v =>
    if a = k then (k, v) :: replaceVal rest k v
    else (a, b) :: replaceVal rest k v

/-- A single CPython dict assignment `d[k] = v`: if the key is present
its stored value is replaced in place, otherwise the pair is appended. -/
def dictInsert (m : List (String × String)) (k v : String) :
    List (String × String) :=
  if k ∈ keys m then replaceVal m k v else m ++ [(k, v)]

/-- The dict comprehension `{i: "OK" for i in device_ids}`. -/
def dictComp (ids : List String) : List (String × String) :=
  ids.foldl (fun m i => dictInsert m i "OK") []

/-- `main.fingerprint`: returns a fixed, literal catalog. -/
def fingerprint : FingerprintResponse :=
  { Devices :=
      [{ Vendor := "Test"
         «Type» := "Hello"
         Name := "World"
         Devices :=
           [{ ID := "1234", Healthy := true, HealthDesc := "OK",
              HwLocality := none }]
         Attributes := [("GenericAttr", { String := some "Yee" })] }]
    Error := none }

/-- `main.reserve`: checks the payload shape, aborts with HTTP 413 when
it is not a list of strings, and otherwise answers
`ContainerReservation({i: "OK" for i in device_ids}, [], [])`. -/
def reserve (j : Json) : Except Nat ContainerReservation :=
  match asStrList j with
  | some ids => .ok { Envs := dictComp ids, Mounts := [], Devices := [] }
  | none => .error 413

/-- `main.stats`: returns a fixed shape around the outcome `r` of
`random.random()` and the wall-clock reading `ts` of
`datetime.datetime.now(datetime.timezone.utc).isoformat()`. -/
def stats (r : Rat) (ts : String) : StatsResponse :=
  { Groups :=
      [{ Vendor := "Test"
         «Type» := "Hello"
         Name := "World"
         InstanceStats :=
           [("1234",
             { Summary := some { StringVal := some "Coolio" }
               Stats := some (StatObject.mk []
                 [("random", { FloatNumeratorVal := some r })])
               Timestamp := some ts })] }]
    Error := none }

/-- The process-wide mutable state of the example server.  The handler
module declares no mutable globals of its own; the only state any
handler mutates is the interpreter's global RNG, consumed one sample at
a time by `random.random()` in `stats`.  It is modelled as an infinite
stream of samples plus a cursor. -/
structure ServerState where
  rng : Nat → Rat
  pos : Nat

/-- One Fingerprint call, with the server state made explicit: the
handler reads and writes no state. -/
def fingerprintStep (s : ServerState) : FingerprintResponse × ServerState :=
  (fingerprint, s)

/-- One Reserve call, with the server state made explicit: the handler
reads and writes no state. -/
def reserveStep (s : ServerState) (j : Json) :
    Except Nat ContainerReservation × ServerState :=
  (reserve j, s)

/-- One Stats call, with the server state made explicit: the handler
draws one sample from the global RNG.  The wall-clock reading `ts` is an
external input, not state. -/
def statsStep (s : ServerState) (ts : String) : StatsResponse × ServerState :=
  (stats (s.rng s.pos) ts, { rng := s.rng, pos := s.pos + 1 })

/-- The single device group of the example server's catalog, as the
`fingerprint` handler builds it. -/
def testGroup : DeviceGroup :=
  { Vendor := "Test"
    «Type» := "Hello"
    Name := "World"
    Devices :=
      [{ ID := "1234", Healthy := true, HealthDesc := "OK",
         HwLocality := none }]
    Attributes := [("GenericAttr", { String := some "Yee" })] }

/-- The single device of the example server's catalog. -/
def testDevice : Device :=
  { ID := "1234", Healthy := true, HealthDesc := "OK", HwLocality := none }

/-- All device IDs of the current catalog, across every group: what the
spec's Reservation Service would resolve requested IDs against. -/
def catalogDeviceIDs : List String :=
  (fingerprint.Devices.foldr (fun g acc => g.Devices ++ acc) []).map
    (fun d => d.ID)

/-- Number of non-absent payload fields of an `Attribute`. -/
def Attribute.payloadCount (a : Attribute) : Nat :=
  (if a.Float.isSome then 1 else 0) + (if a.Int.isSome then 1 else 0) +
    (if a.String.isSome then 1 else 0) + (if a.Bool.isSome then 1 else 0)

/-- Number of non-absent payload fields of a `StatValue`. -/
def StatValue.payloadCount (v : StatValue) : Nat :=
  (if v.FloatNumeratorVal.isSome then 1 else 0) +
    (if v.FloatDenominatorVal.isSome then 1 else 0) +
    (if v.IntNumeratorVal.isSome then 1 else 0) +
    (if v.IntDenominatorVal.isSome then 1 else 0) +
    (if v.StringVal.isSome then 1 else 0) +
    (if v.BoolVal.isSome then 1 else 0)

/-! ### Association-list lemmas for the modelled dict operations -/

@[simp]
theorem keys_nil : keys ([] : List (String × α)) = [] := rfl

@[simp]
theorem keys_cons (a : String) (b : α) (rest : List (String × α)) :
    keys ((a, b) :: rest) = a :: keys rest := rfl

@[simp]
theorem keys_append (m m' : List (String × α)) :
    keys (m ++ m') = keys m ++ keys m' := by
  simp [keys]

theorem alookup_eq_none_iff (k : String) (m : List (String × α)) :
    alookup k m = none ↔ k ∉ keys m := by
  induction m with
  | nil => simp [alookup]
  | cons p rest ih =>
    obtain ⟨k', v⟩ := p
    by_cases h : k' = k
    · subst h
      simp [alookup]
    · simp [alookup, h, ih, Ne.symm h]

theorem keys_replaceVal (m : List (String × String)) (k v : String) :
    keys (replaceVal m k v) = keys m := by
  induction m with
  | nil => rfl
  | cons p rest ih =>
    obtain ⟨a, b⟩ := p
    by_cases ha : a = k
    · subst ha
      simp [replaceVal, ih]
    · simp [replaceVal, if_neg ha, ih]

theorem alookup_replaceVal_eq (m : List (String × String)) (k v : String)
    (h : k ∈ keys m) : alookup k (replaceVal m k v) = some v := by
  induction m with
  | nil => simp at h
  | cons p rest ih =>
    obtain ⟨a, b⟩ := p
    by_cases ha : a = k
    · subst ha
      simp [replaceVal, alookup]
    · simp only [keys_cons, List.mem_cons] at h
      rcases h with h | h
      · exact absurd h.symm ha
      · simp [replaceVal, if_neg ha, alookup, ha, ih h]

theorem alookup_replaceVal_ne (m : List (String × String)) (k v k' : String)
    (hne : k' ≠ k) : alookup k' (replaceVal m k v) = alookup k' m := by
  induction m with
  | nil => rfl
  | cons p rest ih =>
    obtain ⟨a, b⟩ := p
    by_cases ha : a = k
    · subst ha
      simp [replaceVal, alookup, Ne.symm hne, ih]
    · by_cases hak : a = k'
      · simp [replaceVal, if_neg ha, alookup, hak, hne]
      · simp [replaceVal, if_neg ha, alookup, hak, ih]

theorem alookup_append_single (m : List (String × String)) (k v k' : String) :
    alookup k' (m ++ [(k, v)]) =
      match alookup k' m with
      | some w => some w
      | none => if k = k' then some v else none := by
  induction m with
  | nil => simp [alookup]
  | cons p rest ih =>
    obtain ⟨a, b⟩ := p
    by_cases ha : a = k'
    · simp [alookup, ha]
    · simp [alookup, ha, ih]

theorem alookup_dictInsert (m : List (String × String)) (k v k' : String) :
    alookup k' (dictInsert m k v) =
      if k' = k then some v else alookup k' m := by
  unfold dictInsert
  by_cases hm : k ∈ keys m
  · rw [if_pos hm]
    by_cases hk : k' = k
    · subst hk
      rw [if_pos rfl, alookup_replaceVal_eq m k' v hm]
    · rw [if_neg hk, alookup_replaceVal_ne m k v k' hk]
  · rw [if_neg hm, alookup_append_single]
    by_cases hk : k' = k
    · subst hk
      rw [if_pos rfl]
      have h0 : alookup k' m = none := (alookup_eq_none_iff k' m).mpr hm
      simp [h0]
    · rw [if_neg hk]
      cases hl : alookup k' m with
      | some w => simp
      | none => simp [Ne.symm hk]

theorem keys_dictInsert (m : List (String × String)) (k v : String) :
    keys (dictInsert m k v) = if k ∈ keys m then keys m else keys m ++ [k] := by
  unfold dictInsert
  by_cases hm : k ∈ keys m
  · rw [if_pos hm, if_pos hm, keys_replaceVal]
  · rw [if_neg hm, if_neg hm, keys_append]
    rfl


theorem mem_keys_dictInsert (m : List (String × String)) (k v k' : String) :
    k' ∈ keys (dictInsert m k v) ↔ k' ∈ keys m ∨ k' = k := by
  rw [keys_dictInsert]
  by_cases hm : k ∈ keys m
  · rw [if_pos hm]
    constructor
    · exact Or.inl
    · rintro (h | rfl)
      · exact h
      · exact hm
  · rw [if_neg hm]
    simp

theorem nodup_keys_dictInsert (m : List (String × String)) (k v : String)
    (h : (keys m).Nodup) : (keys (dictInsert m k v)).Nodup := by
  rw [keys_dictInsert]
  by_cases hm : k ∈ keys m
  · rwa [if_pos hm]
  · rw [if_neg hm]
    rw [List.nodup_append]
    exact ⟨h, List.nodup_singleton k, by simpa [List.disjoint_singleton] using hm⟩

theorem alookup_dictComp_aux (ids : List String) (m : List (String × String))
    (k : String) :
    alookup k (ids.foldl (fun m i => dictInsert m i "OK") m) =
      if k ∈ ids then some "OK" else alookup k m := by
  induction ids generalizing m with
  | nil => simp
  | cons i rest ih =>
    simp only [List.foldl_cons, ih, alookup_dictInsert, List.mem_cons]
    by_cases hr : k ∈ rest
    · simp [hr]
    · by_cases hi : k = i
      · simp [hi, hr]
      · simp [hi, hr]

theorem alookup_dictComp (ids : List String) (k : String) :
    alookup k (dictComp ids) = if k ∈ ids then some "OK" else none := by
  rw [dictComp, alookup_dictComp_aux]
  rfl

theorem mem_keys_dictComp (ids : List String) (k : String) :
    k ∈ keys (dictComp ids) ↔ k ∈ ids := by
  constructor
  · intro h
    by_contra hk
    have hnone : alookup k (dictComp ids) = none := by
      rw [alookup_dictComp, if_neg hk]
    exact ((alookup_eq_none_iff k (dictComp ids)).mp hnone) h
  · intro h
    by_contra hk
    have hnone : alookup k (dictComp ids) = none :=
      (alookup_eq_none_iff k (dictComp ids)).mpr hk
    rw [alookup_dictComp, if_pos h] at hnone
    exact Option.noConfusion hnone

theorem nodup_keys_dictComp_aux (ids : List String) (m : List (String × String))
    (h : (keys m).Nodup) :
    (keys (ids.foldl (fun m i => dictInsert m i "OK") m)).Nodup := by
  induction ids generalizing m with
  | nil => simpa
  | cons i rest ih =>
    simp only [List.foldl_cons]
    exact ih _ (nodup_keys_dictInsert m i "OK" h)

theorem nodup_keys_dictComp (ids : List String) : (keys (dictComp ids)).Nodup :=
  nodup_keys_dictComp_aux ids [] List.nodup_nil

/-! ### Claim theorems -/

/-- C1 (counterexample): the example server records no reservations, so
two successive Reserve calls for device "1234", with no release between
them, both answer an OK binding for "1234"; the second call does not
answer Error("already reserved"). -/
theorem C1_counterexample :
    (reserveStep ⟨fun _ => 0, 0⟩ (Json.arr [Json.str "1234"])).1 =
      .ok { Envs := [("1234", "OK")], Mounts := [], Devices := [] } ∧
    (reserveStep (reserveStep ⟨fun _ => 0, 0⟩ (Json.arr [Json.str "1234"])).2
        (Json.arr [Json.str "1234"])).1 =
      .ok { Envs := [("1234", "OK")], Mounts := [], Devices := [] } ∧
    alookup "1234" [("1234", "OK")] ≠ some "already reserved" :=
  ⟨rfl, rfl, by decide⟩

/-- C1 (amended): the server keeps no reservation table at all, so
at-most-once allocation does not hold: for every well-formed Reserve
request and every requested ID, both the first call and a second call
issued from the resulting state (no release in between) answer the OK
binding status for that ID, and the second call never answers
Error("already reserved"). -/
theorem C1_amended (s : ServerState) (j : Json) (ids : List String)
    (i : String) (h : asStrList j = some ids) (hi : i ∈ ids) :
    (∃ r₁, (reserveStep s j).1 = .ok r₁ ∧ alookup i r₁.Envs = some "OK") ∧
    (∃ r₂, (reserveStep (reserveStep s j).2 j).1 = .ok r₂ ∧
      alookup i r₂.Envs = some "OK" ∧
      alookup i r₂.Envs ≠ some "already reserved") := by
  have hr : reserve j =
      .ok { Envs := dictComp ids, Mounts := [], Devices := [] } := by
    simp [reserve, h]
  have hl : alookup i (dictComp ids) = some "OK" := by
    rw [alookup_dictComp, if_pos hi]
  refine ⟨⟨{ Envs := dictComp ids, Mounts := [], Devices := [] }, ?_, hl⟩,
    ⟨{ Envs := dictComp ids, Mounts := [], Devices := [] }, ?_, hl, ?_⟩⟩
  · simpa [reserveStep] using hr
  · simpa [reserveStep] using hr
  · rw [hl]
    intro hcontra
    simp at hcontra

/-- C1 (witness for the amended theorem). -/
theorem C1_amended_witness :
    asStrList (Json.arr [Json.str "1234"]) = some ["1234"] ∧
    "1234" ∈ ["1234"] ∧
    ((∃ r₁, (reserveStep ⟨fun _ => 0, 0⟩ (Json.arr [Json.str "1234"])).1 =
        .ok r₁ ∧ alookup "1234" r₁.Envs = some "OK") ∧
     (∃ r₂, (reserveStep
          (reserveStep ⟨fun _ => 0, 0⟩ (Json.arr [Json.str "1234"])).2
          (Json.arr [Json.str "1234"])).1 = .ok r₂ ∧
        alookup "1234" r₂.Envs = some "OK" ∧
        alookup "1234" r₂.Envs ≠ some "already reserved")) :=
  ⟨by decide, by decide,
    C1_amended ⟨fun _ => 0, 0⟩ _ ["1234"] "1234" (by decide) (by decide)⟩

/-- C2 (counterexample): device ID "9999" is not in the catalog, yet the
Reserve result grants it the OK status instead of
Error("unknown device"). -/
theorem C2_counterexample :
    "9999" ∉ catalogDeviceIDs ∧
    reserve (Json.arr [Json.str "9999"]) =
      .ok { Envs := [("9999", "OK")], Mounts := [], Devices := [] } ∧
    alookup "9999" [("9999", "OK")] ≠ some "unknown device" :=
  ⟨by decide, rfl, by decide⟩

/-- C2 (amended): the server resolves nothing against the catalog: every
requested ID that does not appear in the current Catalog still receives
the per-ID status OK (never Error("unknown device")), and the presence of
unknown IDs never causes the whole request to fail or abort the other
requested IDs. -/
theorem C2_amended (j : Json) (ids : List String) (i : String)
    (h : asStrList j = some ids) (hi : i ∈ ids)
    (_hu : i ∉ catalogDeviceIDs) :
    ∃ r, reserve j = .ok r ∧ alookup i r.Envs = some "OK" ∧
      alookup i r.Envs ≠ some "unknown device" := by
  have hl : alookup i (dictComp ids) = some "OK" := by
    rw [alookup_dictComp, if_pos hi]
  refine ⟨{ Envs := dictComp ids, Mounts := [], Devices := [] }, ?_, hl, ?_⟩
  · simp [reserve, h]
  · rw [hl]
    intro hcontra
    simp at hcontra

/-- C2 (witness for the amended theorem). -/
theorem C2_amended_witness :
    asStrList (Json.arr [Json.str "9999"]) = some ["9999"] ∧
    "9999" ∈ ["9999"] ∧ "9999" ∉ catalogDeviceIDs ∧
    (∃ r, reserve (Json.arr [Json.str "9999"]) = .ok r ∧
      alookup "9999" r.Envs = some "OK" ∧
      alookup "9999" r.Envs ≠ some "unknown device") :=
  ⟨by decide, by decide, by decide,
    C2_amended _ ["9999"] "9999" (by decide) (by decide) (by decide)⟩

/-- C3: Reservation completeness — for every Reserve call whose payload
is a list of strings, the result's Envs map has exactly one entry per
distinct requested ID: every requested ID appears as a key, no other key
appears, and duplicate IDs in the request collapse to a single entry. -/
theorem C3_reservation_completeness (j : Json) (ids : List String)
    (h : asStrList j = some ids) :
    ∃ r, reserve j = .ok r ∧ (keys r.Envs).Nodup ∧
      ∀ k, k ∈ keys r.Envs ↔ k ∈ ids := by
  refine ⟨{ Envs := dictComp ids, Mounts := [], Devices := [] }, ?_, ?_, ?_⟩
  · simp [reserve, h]
  · exact nodup_keys_dictComp ids
  · exact fun k => mem_keys_dictComp ids k

/-- C3 (witness): a request with a duplicate ID. -/
theorem C3_witness :
    asStrList (Json.arr [Json.str "a", Json.str "b", Json.str "a"]) =
      some ["a", "b", "a"] ∧
    (∃ r, reserve (Json.arr [Json.str "a", Json.str "b", Json.str "a"]) =
        .ok r ∧ (keys r.Envs).Nodup ∧
      ∀ k, k ∈ keys r.Envs ↔ k ∈ ["a", "b", "a"]) :=
  ⟨by decide, C3_reservation_completeness _ ["a", "b", "a"] (by decide)⟩

/-- C4: Malformed-request rejection — any Reserve payload that is not a
list of strings is answered with the client-error status 413 before any
domain logic runs: no ContainerReservation (hence no binding map) is
produced and the server state is unchanged. -/
theorem C4_malformed_rejected (s : ServerState) (j : Json)
    (h : asStrList j = none) :
    reserveStep s j = (.error 413, s) := by
  simp [reserveStep, reserve, h]

/-- C4 (witness): a list containing a non-string element. -/
theorem C4_witness :
    asStrList (Json.arr [Json.num 3]) = none ∧
    reserveStep ⟨fun _ => 0, 0⟩ (Json.arr [Json.num 3]) =
      (.error 413, ⟨fun _ => 0, 0⟩) :=
  ⟨by decide, C4_malformed_rejected ⟨fun _ => 0, 0⟩ _ (by decide)⟩

/-- C5 (counterexample): the `Attribute` and `StatValue` dataclasses
accept a construction with two payload fields set and store both fields
verbatim — nothing is rejected, no normalization happens, and no kind
discriminant exists to match a populated field. -/
theorem C5_counterexample :
    ({ Float := some 1, Int := some 2 } : Attribute).payloadCount = 2 ∧
    ({ Float := some 1, Int := some 2 } : Attribute).Float = some 1 ∧
    ({ Float := some 1, Int := some 2 } : Attribute).Int = some 2 ∧
    ({ FloatNumeratorVal := some 1, StringVal := some "x" } :
      StatValue).payloadCount = 2 :=
  ⟨rfl, rfl, rfl, rfl⟩

/-- C5 (amended): the Value types enforce no exclusivity — construction
of an `Attribute` stores every payload field verbatim (the deterministic
behavior is the identity, neither rejection nor normalization), there is
no kind discriminant, and values with zero or with two non-absent payload
fields are constructible for both `Attribute` and `StatValue`. -/
theorem C5_amended (f : Option Rat) (i : Option Int) (s : Option String)
    (b : Option Bool) (u : PyStr) :
    (Attribute.mk f i s b u).Float = f ∧ (Attribute.mk f i s b u).Int = i ∧
    (Attribute.mk f i s b u).String = s ∧ (Attribute.mk f i s b u).Bool = b ∧
    (∃ a : Attribute, a.payloadCount = 0) ∧
    (∃ a : Attribute, a.payloadCount = 2) ∧
    (∃ v : StatValue, v.payloadCount = 2) :=
  ⟨rfl, rfl, rfl, rfl, ⟨({} : Attribute), rfl⟩,
    ⟨({ Float := some 1, Int := some 2 } : Attribute), rfl⟩,
    ⟨({ FloatNumeratorVal := some 1, StringVal := some "x" } : StatValue),
      rfl⟩⟩

/-- C5 (witness for the amended theorem, at concrete payloads). -/
theorem C5_amended_witness :
    (Attribute.mk (some 1) none none none "u").Float = some 1 ∧
    (Attribute.mk (some 1) none none none "u").Int = none ∧
    (Attribute.mk (some 1) none none none "u").String = none ∧
    (Attribute.mk (some 1) none none none "u").Bool = none ∧
    (∃ a : Attribute, a.payloadCount = 0) ∧
    (∃ a : Attribute, a.payloadCount = 2) ∧
    (∃ v : StatValue, v.payloadCount = 2) :=
  C5_amended (some 1) none none none "u"

/-- C6: Stats coverage — for every group of the Catalog returned by
Fingerprint and every device of that group, the Stats response (for any
RNG outcome and any clock reading) contains that group and carries a
StatsSnapshot for that device in the group's InstanceStats map; coverage
never relies on a group-level error. -/
theorem C6_stats_coverage (r : Rat) (ts : String) (g : DeviceGroup)
    (d : Device) (hg : g ∈ fingerprint.Devices) (hd : d ∈ g.Devices) :
    ∃ gs, gs ∈ (stats r ts).Groups ∧ gs.Vendor = g.Vendor ∧
      gs.«Type» = g.«Type» ∧ gs.Name = g.Name ∧
      (alookup d.ID gs.InstanceStats).isSome = true ∧
      (stats r ts).Error = none := by
  simp only [fingerprint, List.mem_singleton] at hg
  subst hg
  simp only [List.mem_singleton] at hd
  subst hd
  exact ⟨_, List.mem_singleton.mpr rfl, rfl, rfl, rfl, rfl, rfl⟩

/-- C6 (witness): the concrete catalog group and device of the code. -/
theorem C6_witness :
    testGroup ∈ fingerprint.Devices ∧ testDevice ∈ testGroup.Devices ∧
    (∃ gs, gs ∈ (stats 0 "2024-01-01T00:00:00+00:00").Groups ∧
      gs.Vendor = testGroup.Vendor ∧ gs.«Type» = testGroup.«Type» ∧
      gs.Name = testGroup.Name ∧
      (alookup testDevice.ID gs.InstanceStats).isSome = true ∧
      (stats 0 "2024-01-01T00:00:00+00:00").Error = none) :=
  ⟨by decide, by decide,
    C6_stats_coverage 0 "2024-01-01T00:00:00+00:00" testGroup testDevice
      (by decide) (by decide)⟩

/-- C8 (counterexample): a Reserve call with the empty list is not
rejected — the empty payload passes the shape check (Python's `all` over
an empty sequence is true) and is processed as a normal reservation,
answering an OK ContainerReservation with an empty binding map. -/
theorem C8_counterexample :
    reserve (Json.arr []) =
      .ok { Envs := [], Mounts := [], Devices := [] } ∧
    reserve (Json.arr []) ≠ .error 413 := by
  constructor
  · rfl
  · intro hcontra
    rw [show reserve (Json.arr []) =
        Except.ok { Envs := [], Mounts := [], Devices := [] } from rfl]
      at hcontra
    exact Except.noConfusion hcontra

/-- C8 (amended): the empty device-ID list is accepted as a well-formed
request and processed like any other reservation, yielding an empty
binding map; no non-emptiness precondition is enforced. -/
theorem C8_amended :
    asStrList (Json.arr []) = some [] ∧
    reserve (Json.arr []) =
      .ok { Envs := dictComp [], Mounts := [], Devices := [] } :=
  ⟨rfl, rfl⟩

/-- C9: Fingerprint determinism — from any two server states, at any
time, the Fingerprint call returns identical results; the result is
exactly the literal catalog (one group Test/Hello/World with single
healthy device "1234" without locality and one group attribute
GenericAttr with String payload "Yee"), the error field is unset, and the
call leaves the state unchanged. -/
theorem C9_fingerprint_deterministic (s s' : ServerState) :
    (fingerprintStep s).1 = (fingerprintStep s').1 ∧
    (fingerprintStep s).2 = s ∧
    (fingerprintStep s).1 =
      { Devices :=
          [{ Vendor := "Test"
             «Type» := "Hello"
             Name := "World"
             Devices :=
               [{ ID := "1234", Healthy := true, HealthDesc := "OK",
                  HwLocality := none }]
             Attributes := [("GenericAttr", { String := some "Yee" })] }]
        Error := none } :=
  ⟨rfl, rfl, rfl⟩

/-- C9 (witness at two concrete, distinct states). -/
theorem C9_witness :
    (fingerprintStep ⟨fun _ => 0, 0⟩).1 = (fingerprintStep ⟨fun _ => 1, 5⟩).1 ∧
    (fingerprintStep ⟨fun _ => 0, 0⟩).2 = ⟨fun _ => 0, 0⟩ ∧
    (fingerprintStep ⟨fun _ => 0, 0⟩).1 =
      { Devices :=
          [{ Vendor := "Test"
             «Type» := "Hello"
             Name := "World"
             Devices :=
               [{ ID := "1234", Healthy := true, HealthDesc := "OK",
                  HwLocality := none }]
             Attributes := [("GenericAttr", { String := some "Yee" })] }]
        Error := none } :=
  C9_fingerprint_deterministic ⟨fun _ => 0, 0⟩ ⟨fun _ => 1, 5⟩

/-- C10: Reserve statelessness and fixed result shape — a Reserve call
leaves the server state unchanged, its result does not depend on the
state, later Fingerprint/Stats/Reserve calls are unaffected by it, and
for every well-formed request the returned ContainerReservation has empty
Mounts and Devices lists while its Envs map sends exactly the distinct
requested IDs to "OK". -/
theorem C10_reserve_stateless (s s' : ServerState) (j : Json)
    (ids : List String) (h : asStrList j = some ids) :
    (reserveStep s j).2 = s ∧
    (reserveStep s' j).1 = (reserveStep s j).1 ∧
    (fingerprintStep (reserveStep s j).2).1 = (fingerprintStep s).1 ∧
    (∀ ts, (statsStep (reserveStep s j).2 ts).1 = (statsStep s ts).1) ∧
    (∀ j', (reserveStep (reserveStep s j).2 j').1 = (reserveStep s j').1) ∧
    ∃ r, reserve j = .ok r ∧ r.Mounts = [] ∧ r.Devices = [] ∧
      ∀ k, alookup k r.Envs = if k ∈ ids then some "OK" else none := by
  refine ⟨rfl, rfl, rfl, fun ts => rfl, fun j' => rfl,
    ⟨{ Envs := dictComp ids, Mounts := [], Devices := [] }, ?_, rfl, rfl, ?_⟩⟩
  · simp [reserve, h]
  · exact fun k => alookup_dictComp ids k

/-- C10 (witness). -/
theorem C10_witness :
    asStrList (Json.arr [Json.str "a"]) = some ["a"] ∧
    ((reserveStep ⟨fun _ => 0, 0⟩ (Json.arr [Json.str "a"])).2 =
        ⟨fun _ => 0, 0⟩ ∧
     (reserveStep ⟨fun _ => 1, 5⟩ (Json.arr [Json.str "a"])).1 =
       (reserveStep ⟨fun _ => 0, 0⟩ (Json.arr [Json.str "a"])).1 ∧
     (fingerprintStep
         (reserveStep ⟨fun _ => 0, 0⟩ (Json.arr [Json.str "a"])).2).1 =
       (fingerprintStep ⟨fun _ => 0, 0⟩).1 ∧
     (∀ ts, (statsStep
         (reserveStep ⟨fun _ => 0, 0⟩ (Json.arr [Json.str "a"])).2 ts).1 =
       (statsStep ⟨fun _ => 0, 0⟩ ts).1) ∧
     (∀ j', (reserveStep
         (reserveStep ⟨fun _ => 0, 0⟩ (Json.arr [Json.str "a"])).2 j').1 =
       (reserveStep ⟨fun _ => 0, 0⟩ j').1) ∧
     ∃ r, reserve (Json.arr [Json.str "a"]) = .ok r ∧ r.Mounts = [] ∧
       r.Devices = [] ∧
       ∀ k, alookup k r.Envs = if k ∈ ["a"] then some "OK" else none) :=
  ⟨by decide, C10_reserve_stateless ⟨fun _ => 0, 0⟩ ⟨fun _ => 1, 5⟩ _ ["a"]
    (by decide)⟩
